import Mathlib

/-!
# Verification of the similarity-lookup and ranking engine

Shallow embedding of `get_movie_recommendations` from `src/app.py` of the
`movie-recomendation` repository, together with proofs settling the frozen
claims about it.

The Python function operates on a pandas `DataFrame` `df` obtained from
`pd.read_csv(output, index_col=0)`: its row labels (`df.index`) and column
labels (`df.columns`) are movie-title strings and its cells are similarity
scores.  We model the scores as rationals: the function only ever compares
scores (in `sort_values`), and IEEE-754 comparison on the non-NaN doubles
that occur here agrees with the rational order of the represented values.

Modelled pandas behaviour, each point traceable to the library's semantics:
* `t in df.columns` / `t in df.index` is label membership;
* `df.loc[t]` with `t` occurring exactly once in the index is the row
  Series (labels = `df.columns`); with a duplicated label it is a
  `DataFrame`, and the subsequent `sort_values(ascending=False)` then
  raises `TypeError` (the required `by` argument is missing), which the
  function's `except Exception` turns into `return []`;
* `df[t]` with a unique column label is the column Series (labels =
  `df.index`); duplicated column labels likewise give a `DataFrame`;
* `Series.sort_values(ascending=False)` argsorts ascending and reverses
  the order (`pandas.core.sorting.nargsort`: `indexer = indexer[::-1]`);
  for the list sizes used in any counterexample below the underlying
  numpy quicksort degenerates to a stable insertion sort, which is what
  the model implements;
* `hasattr(similarity_scores, 'sort_values')` is true for both Series and
  DataFrame, so the numpy `argsort` else-branch in the source is dead code
  and is not part of the model;
* the recursive fallback call re-enters the same function; Python bounds
  it by the interpreter recursion limit (default 1000), the resulting
  `RecursionError` being caught by the caller's `except Exception`.  The
  model uses explicit fuel: `none` stands for exhaustion of the limit, and
  the top-level wrapper turns it into `[]`, which is also the value the
  Python call chain yields since every frame returns the recursive call's
  result unchanged.

The source returns only the movie names; the model carries the
(name, score) pairs through the recursion and projects to the names once
at the top, which yields the same list of names frame for frame (the
filter in the source reads only the name).
-/

namespace MovieRec

/-- The loaded similarity table: `pd.read_csv(output, index_col=0)`.
Row labels, column labels, and a total cell function (row, column ↦ score). -/
structure DataFrame where
  index : List String
  columns : List String
  cell : Nat → Nat → ℚ

/-- Build a concrete table from explicit rows (cells default to 0 outside
the given rows, which is never read in the examples below). -/
def DataFrame.ofRows (cols idx : List String) (rows : List (List ℚ)) : DataFrame :=
  ⟨idx, cols, fun r c => ((rows.getD r []).getD c 0)⟩

/-- Python `str.lower()` (ASCII titles in the data; per character). -/
def pyLower (s : String) : String :=
  ⟨s.data.map Char.toLower⟩

/-- Python `str.strip()`: drop leading and trailing whitespace. -/
def pyStrip (s : String) : String :=
  ⟨((s.data.dropWhile Char.isWhitespace).reverse.dropWhile Char.isWhitespace).reverse⟩

/-- Python's substring test `needle in hay` on lists of characters. -/
def charsContain (needle : List Char) : List Char → Bool
  | [] => needle.isEmpty
  | c :: t => needle.isPrefixOf (c :: t) || charsContain needle t

/-- Python `movie_title.lower() in label.lower()`: case-insensitive
substring test. -/
def strContainsCI (hay needle : String) : Bool :=
  charsContain (pyLower needle).data (pyLower hay).data

/-- A pandas Series as the list of (label, value) pairs, in axis order:
labels with their positions supplied by `val`. -/
def seriesAux (val : Nat → ℚ) : Nat → List String → List (String × ℚ)
  | _, [] => []
  | i, name :: rest => (name, val i) :: seriesAux val (i + 1) rest

/-- Row lookup `df.loc[t]` for a unique index label at position `r`: the
row Series, labelled by the columns. -/
def DataFrame.rowSeries (df : DataFrame) (r : Nat) : List (String × ℚ) :=
  seriesAux (fun c => df.cell r c) 0 df.columns

/-- Column lookup `df[t]` for a unique column label at position `c`: the
column Series, labelled by the index. -/
def DataFrame.colSeries (df : DataFrame) (c : Nat) : List (String × ℚ) :=
  seriesAux (fun r => df.cell r c) 0 df.index

/-- One step of the ascending insertion sort underlying
`sort_values` (numpy's small-array quicksort is insertion sort). -/
def insertAsc (a : String × ℚ) : List (String × ℚ) → List (String × ℚ)
  | [] => [a]
  | b :: l => if a.2 ≤ b.2 then a :: b :: l else b :: insertAsc a l

/-- Stable ascending sort by score. -/
def sortAsc : List (String × ℚ) → List (String × ℚ)
  | [] => []
  | a :: l => insertAsc a (sortAsc l)

/-- The call `similarity_scores.sort_values(ascending=False)`: pandas
argsorts ascending and reverses the permutation. -/
def sortValuesDesc (s : List (String × ℚ)) : List (String × ℚ) :=
  (sortAsc s).reverse

/-- Truncation `.head(6)` followed by
`[name for name in similar_movies.index if name != movie_title and str(name).strip()][:5]`,
carrying the scores along (the filter reads only the name). -/
def rankPipeline (t : String) (s : List (String × ℚ)) : List (String × ℚ) :=
  (((sortValuesDesc s).take 6).filter (fun p => p.1 != t && pyStrip p.1 != "")).take 5

/-- The one exception the try-block can raise: `sort_values()` called on a
`DataFrame` (duplicate labels) is a `TypeError`. -/
inductive PdErr
  | typeErr
deriving DecidableEq

/-- Outcome of one try-block pass: a finished ranking, or the fuzzy-match
recursive call `get_movie_recommendations(best_match)`. -/
inductive StepRes
  | done (l : List (String × ℚ))
  | recurse (t : String)
deriving DecidableEq

/-- The body of the `try:` block of `get_movie_recommendations`, for the
already-stripped title `t`.  Method 1: `t in df.columns` (row lookup when
`t` is also an index label, else column lookup); Method 2: `t in df.index`;
Method 3: first case-insensitive substring match among columns, then among
the index, recursing on the matched label. -/
def tryBody (df : DataFrame) (t : String) : Except PdErr StepRes :=
  if t ∈ df.columns then
    if t ∈ df.index then
      if 2 ≤ df.index.count t then .error .typeErr
      else .ok (.done (rankPipeline t (df.rowSeries (List.indexOf t df.index))))
    else
      if 2 ≤ df.columns.count t then .error .typeErr
      else .ok (.done (rankPipeline t (df.colSeries (List.indexOf t df.columns))))
  else if t ∈ df.index then
    if 2 ≤ df.index.count t then .error .typeErr
    else .ok (.done (rankPipeline t (df.rowSeries (List.indexOf t df.index))))
  else
    match df.columns.find? (fun c => strContainsCI c t) with
    | some best => .ok (.recurse best)
    | none =>
      match df.index.find? (fun i => strContainsCI i t) with
      | some best => .ok (.recurse best)
      | none => .ok (.done [])

/-- Function `get_movie_recommendations` with explicit recursion fuel.  A frame:
the `if not movie_title` guard, then `movie_title.strip()`, then the
try-block; `except Exception` yields `[]`; `none` models exceeding the
recursion limit, the `RecursionError` being converted to `[]` at top level
(each frame returns the recursive call's value unchanged, so catching the
error at the top yields the same overall value as the per-frame catch). -/
def gmrF : Nat → DataFrame → String → Option (List (String × ℚ))
  | 0, _, _ => none
  | n + 1, df, t =>
    if t = "" then some [] else
      match tryBody df (pyStrip t) with
      | .ok (.done l) => some l
      | .ok (.recurse best) => gmrF n df best
      | .error _ => some []

/-- Python's default recursion limit. -/
def recursionLimit : Nat := 1000

/-- Entry point `get_movie_recommendations(movie_title)` from `src/app.py`: the list of
recommended movie names (the source projects the Series labels; the model
carries the scores through `gmrF` and projects here). -/
def get_movie_recommendations (df : DataFrame) (movie_title : String) : List String :=
  ((gmrF recursionLimit df movie_title).getD []).map Prod.fst

/-! ### Concrete tables used in examples, counterexamples and witnesses -/

/-- The spec's worked example: titles `A, B, C`, row `A = {A:1, B:0.9, C:0.2}`. -/
def dfABC : DataFrame :=
  DataFrame.ofRows ["A", "B", "C"] ["A", "B", "C"]
    [[1, mkRat 9 10, mkRat 2 10], [mkRat 9 10, 1, 0], [mkRat 2 10, 0, 1]]

/-- Eight titles; the query `Q` has seven non-self candidates. -/
def df8 : DataFrame :=
  DataFrame.ofRows
    ["Q", "B", "C", "D", "E", "F", "G", "H"] ["Q", "B", "C", "D", "E", "F", "G", "H"]
    [[1, mkRat 9 10, mkRat 8 10, mkRat 7 10, mkRat 6 10, mkRat 5 10, mkRat 4 10, mkRat 3 10]]

/-- Two index rows labelled `Up` with different score vectors. -/
def dfDup : DataFrame :=
  DataFrame.ofRows ["Up", "B"] ["Up", "Up"] [[1, mkRat 9 10], [1, mkRat 1 10]]

/-- `dfDup` with only the first `Up` row kept. -/
def dfDedup : DataFrame :=
  DataFrame.ofRows ["Up", "B"] ["Up"] [[1, mkRat 9 10]]

/-- Row `Q = {Q:1, A:s, B:s, C:s}`: three candidates tied at score `s`. -/
def dfTie (s : ℚ) : DataFrame :=
  ⟨["Q", "A", "B", "C"], ["Q", "A", "B", "C"],
    fun r c => if r = 0 then (if c = 0 then 1 else s) else 0⟩

/-- A single label carrying surrounding whitespace. -/
def dfWs : DataFrame :=
  DataFrame.ofRows [" Up "] [" Up "] [[1]]

/-- Labels `Up` and ` Up `: an untrimmed query ` Up ` resolves (after the
strip) to the row of `Up` and can be recommended to itself. -/
def dfPad : DataFrame :=
  DataFrame.ofRows ["Up", " Up "] ["Up", " Up "] [[1, mkRat 9 10], [mkRat 9 10, 1]]

/-- Both `Inception 2` and `Inception` present, `Inception 2` first. -/
def dfInc : DataFrame :=
  DataFrame.ofRows ["Inception 2", "Inception"] ["Inception 2", "Inception"]
    [[1, mkRat 3 10], [mkRat 3 10, 1]]

/-- Only `Inception` matches the substring `inception` among the labels. -/
def dfInc2 : DataFrame :=
  DataFrame.ofRows ["Inception", "Other"] ["Inception", "Other"]
    [[1, mkRat 1 2], [mkRat 1 2, 1]]

/-! ### Lemmas about the sorting pipeline -/

lemma mem_insertAsc (a x : String × ℚ) (l : List (String × ℚ)) :
    x ∈ insertAsc a l ↔ x = a ∨ x ∈ l := by
  induction l with
  | nil => simp [insertAsc]
  | cons b l ih =>
    by_cases h : a.2 ≤ b.2
    · simp [insertAsc, h]
    · simp only [insertAsc, if_neg h, List.mem_cons, ih]
      tauto

lemma pairwise_insertAsc (a : String × ℚ) {l : List (String × ℚ)}
    (h : l.Pairwise (fun p q => p.2 ≤ q.2)) :
    (insertAsc a l).Pairwise (fun p q => p.2 ≤ q.2) := by
  induction l with
  | nil => simp [insertAsc]
  | cons b l ih =>
    rcases List.pairwise_cons.mp h with ⟨hb, hl⟩
    by_cases hab : a.2 ≤ b.2
    · rw [insertAsc, if_pos hab]
      refine List.pairwise_cons.mpr ⟨?_, h⟩
      intro x hx
      rcases List.mem_cons.mp hx with rfl | hx
      · exact hab
      · exact le_trans hab (hb x hx)
    · rw [insertAsc, if_neg hab]
      refine List.pairwise_cons.mpr ⟨?_, ih hl⟩
      intro x hx
      rcases (mem_insertAsc a x l).mp hx with rfl | hx
      · exact le_of_not_le hab
      · exact hb x hx

lemma pairwise_sortAsc (l : List (String × ℚ)) :
    (sortAsc l).Pairwise (fun p q => p.2 ≤ q.2) := by
  induction l with
  | nil => simp [sortAsc]
  | cons a l ih =>
    rw [sortAsc]
    exact pairwise_insertAsc a ih

lemma mem_sortAsc {x : String × ℚ} (l : List (String × ℚ)) :
    x ∈ sortAsc l ↔ x ∈ l := by
  induction l with
  | nil => simp [sortAsc]
  | cons a l ih => simp [sortAsc, mem_insertAsc, ih]

lemma length_rankPipeline (t : String) (s : List (String × ℚ)) :
    (rankPipeline t s).length ≤ 5 :=
  List.length_take_le 5 _

lemma pairwise_rankPipeline (t : String) (s : List (String × ℚ)) :
    (rankPipeline t s).Pairwise (fun p q => q.2 ≤ p.2) := by
  have h1 : (sortValuesDesc s).Pairwise (fun p q => q.2 ≤ p.2) := by
    rw [sortValuesDesc]
    exact List.pairwise_reverse.mpr (pairwise_sortAsc s)
  refine List.Pairwise.sublist ?_ h1
  exact (List.take_sublist _ _).trans ((List.filter_sublist _).trans (List.take_sublist _ _))

lemma mem_rankPipeline {p : String × ℚ} {t : String} {s : List (String × ℚ)}
    (h : p ∈ rankPipeline t s) : p ∈ s ∧ p.1 ≠ t := by
  have h1 := List.mem_of_mem_take h
  have h2 := List.of_mem_filter h1
  have h4 := List.mem_of_mem_take (List.mem_of_mem_filter h1)
  have h5 : p ∈ s := by
    rw [sortValuesDesc] at h4
    exact (mem_sortAsc s).mp (List.mem_reverse.mp h4)
  refine ⟨h5, ?_⟩
  exact bne_iff_ne.mp ((Bool.and_eq_true _ _).mp h2).1

lemma mem_seriesAux {p : String × ℚ} (val : Nat → ℚ) :
    ∀ (i : Nat) (labels : List String), p ∈ seriesAux val i labels → p.1 ∈ labels := by
  intro i labels
  induction labels generalizing i with
  | nil => simp [seriesAux]
  | cons name rest ih =>
    intro h
    rw [seriesAux] at h
    rcases List.mem_cons.mp h with rfl | h
    · exact List.mem_cons_self _ _
    · exact List.mem_cons_of_mem _ (ih _ h)

lemma fst_mem_of_mem_rowSeries {p : String × ℚ} {df : DataFrame} {r : Nat}
    (h : p ∈ df.rowSeries r) : p.1 ∈ df.columns :=
  mem_seriesAux _ _ _ h

lemma fst_mem_of_mem_colSeries {p : String × ℚ} {df : DataFrame} {c : Nat}
    (h : p ∈ df.colSeries c) : p.1 ∈ df.index :=
  mem_seriesAux _ _ _ h

/-! ### Lemmas about the try-block and the recursion -/

/-- The three target properties of a ranked row lookup. -/
lemma rankRow_spec (df : DataFrame) (t : String) (r : Nat) :
    (rankPipeline t (df.rowSeries r)).length ≤ 5 ∧
      (∀ p ∈ rankPipeline t (df.rowSeries r),
        (p.1 ∈ df.columns ∨ p.1 ∈ df.index) ∧ p.1 ≠ t) ∧
      (rankPipeline t (df.rowSeries r)).Pairwise (fun p q => q.2 ≤ p.2) := by
  refine ⟨length_rankPipeline _ _, ?_, pairwise_rankPipeline _ _⟩
  intro p hp
  exact ⟨Or.inl (fst_mem_of_mem_rowSeries (mem_rankPipeline hp).1), (mem_rankPipeline hp).2⟩

/-- The three target properties of a ranked column lookup. -/
lemma rankCol_spec (df : DataFrame) (t : String) (c : Nat) :
    (rankPipeline t (df.colSeries c)).length ≤ 5 ∧
      (∀ p ∈ rankPipeline t (df.colSeries c),
        (p.1 ∈ df.columns ∨ p.1 ∈ df.index) ∧ p.1 ≠ t) ∧
      (rankPipeline t (df.colSeries c)).Pairwise (fun p q => q.2 ≤ p.2) := by
  refine ⟨length_rankPipeline _ _, ?_, pairwise_rankPipeline _ _⟩
  intro p hp
  exact ⟨Or.inr (fst_mem_of_mem_colSeries (mem_rankPipeline hp).1), (mem_rankPipeline hp).2⟩

lemma tryBody_done_spec {df : DataFrame} {t : String} {l : List (String × ℚ)}
    (h : tryBody df t = .ok (.done l)) :
    l.length ≤ 5 ∧ (∀ p ∈ l, (p.1 ∈ df.columns ∨ p.1 ∈ df.index) ∧ p.1 ≠ t) ∧
      l.Pairwise (fun p q => q.2 ≤ p.2) := by
  by_cases h1 : t ∈ df.columns
  · by_cases h2 : t ∈ df.index
    · by_cases h3 : 2 ≤ df.index.count t
      · rw [tryBody, if_pos h1, if_pos h2, if_pos h3] at h
        exact absurd h (by simp)
      · rw [tryBody, if_pos h1, if_pos h2, if_neg h3] at h
        have hl : rankPipeline t (df.rowSeries (List.indexOf t df.index)) = l := by
          simpa using h
        exact hl ▸ rankRow_spec df t _
    · by_cases h3 : 2 ≤ df.columns.count t
      · rw [tryBody, if_pos h1, if_neg h2, if_pos h3] at h
        exact absurd h (by simp)
      · rw [tryBody, if_pos h1, if_neg h2, if_neg h3] at h
        have hl : rankPipeline t (df.colSeries (List.indexOf t df.columns)) = l := by
          simpa using h
        exact hl ▸ rankCol_spec df t _
  · by_cases h2 : t ∈ df.index
    · by_cases h3 : 2 ≤ df.index.count t
      · rw [tryBody, if_neg h1, if_pos h2, if_pos h3] at h
        exact absurd h (by simp)
      · rw [tryBody, if_neg h1, if_pos h2, if_neg h3] at h
        have hl : rankPipeline t (df.rowSeries (List.indexOf t df.index)) = l := by
          simpa using h
        exact hl ▸ rankRow_spec df t _
    · rw [tryBody, if_neg h1, if_neg h2] at h
      rcases hc : df.columns.find? (fun c => strContainsCI c t) with _ | best
      · rcases hi : df.index.find? (fun i => strContainsCI i t) with _ | best
        · rw [hc, hi] at h
          have hl : ([] : List (String × ℚ)) = l := by simpa using h
          subst hl
          exact ⟨by simp, by simp, by simp⟩
        · rw [hc, hi] at h
          exact absurd h (by simp)
      · rw [hc] at h
        exact absurd h (by simp)

lemma tryBody_recurse_spec {df : DataFrame} {t b : String}
    (h : tryBody df t = .ok (.recurse b)) :
    (b ∈ df.columns ∨ b ∈ df.index) ∧ t ∉ df.columns ∧ t ∉ df.index := by
  by_cases h1 : t ∈ df.columns
  · by_cases h2 : t ∈ df.index
    · by_cases h3 : 2 ≤ df.index.count t
      · rw [tryBody, if_pos h1, if_pos h2, if_pos h3] at h
        exact absurd h (by simp)
      · rw [tryBody, if_pos h1, if_pos h2, if_neg h3] at h
        exact absurd h (by simp)
    · by_cases h3 : 2 ≤ df.columns.count t
      · rw [tryBody, if_pos h1, if_neg h2, if_pos h3] at h
        exact absurd h (by simp)
      · rw [tryBody, if_pos h1, if_neg h2, if_neg h3] at h
        exact absurd h (by simp)
  · by_cases h2 : t ∈ df.index
    · by_cases h3 : 2 ≤ df.index.count t
      · rw [tryBody, if_neg h1, if_pos h2, if_pos h3] at h
        exact absurd h (by simp)
      · rw [tryBody, if_neg h1, if_pos h2, if_neg h3] at h
        exact absurd h (by simp)
    · rw [tryBody, if_neg h1, if_neg h2] at h
      rcases hc : df.columns.find? (fun c => strContainsCI c t) with _ | best'
      · rcases hi : df.index.find? (fun i => strContainsCI i t) with _ | best'
        · rw [hc, hi] at h
          exact absurd h (by simp)
        · rw [hc, hi] at h
          have hb : best' = b := by simpa using h
          subst hb
          exact ⟨Or.inr (List.mem_of_find?_eq_some hi), h1, h2⟩
      · rw [hc] at h
        have hb : best' = b := by simpa using h
        subst hb
        exact ⟨Or.inl (List.mem_of_find?_eq_some hc), h1, h2⟩

lemma tryBody_not_recurse {df : DataFrame} {t : String}
    (hm : t ∈ df.columns ∨ t ∈ df.index) {b : String} :
    tryBody df t ≠ .ok (.recurse b) := by
  intro h
  have hspec := tryBody_recurse_spec h
  rcases hm with h' | h'
  · exact hspec.2.1 h'
  · exact hspec.2.2 h'

lemma tryBody_error_of_dup {df : DataFrame} {t : String}
    (hmem : t ∈ df.index) (hdup : 2 ≤ df.index.count t) :
    tryBody df t = .error .typeErr := by
  unfold tryBody
  by_cases h1 : t ∈ df.columns
  · rw [if_pos h1, if_pos hmem, if_pos hdup]
  · rw [if_neg h1, if_pos hmem, if_pos hdup]

lemma gmrF_guard_step (n : Nat) (df : DataFrame) :
    gmrF (n + 1) df "" = some [] := by
  rw [gmrF, if_pos rfl]

lemma gmrF_done_step {df : DataFrame} {t : String} {l : List (String × ℚ)}
    (ht : t ≠ "") (h : tryBody df (pyStrip t) = .ok (.done l)) (n : Nat) :
    gmrF (n + 1) df t = some l := by
  rw [gmrF, if_neg ht, h]

lemma gmrF_recurse_step {df : DataFrame} {t best : String}
    (ht : t ≠ "") (h : tryBody df (pyStrip t) = .ok (.recurse best)) (n : Nat) :
    gmrF (n + 1) df t = gmrF n df best := by
  rw [gmrF, if_neg ht, h]

lemma gmrF_error_step {df : DataFrame} {t : String} {e : PdErr}
    (ht : t ≠ "") (h : tryBody df (pyStrip t) = .error e) (n : Nat) :
    gmrF (n + 1) df t = some [] := by
  rw [gmrF, if_neg ht, h]

/-- The value of a resolving frame does not depend on the remaining fuel:
once the (stripped) title is an exact label, no recursion happens. -/
lemma gmrF_fuel_stable {df : DataFrame} {t : String}
    (hm : pyStrip t ∈ df.columns ∨ pyStrip t ∈ df.index) (n m : Nat) :
    gmrF (n + 1) df t = gmrF (m + 1) df t := by
  by_cases ht : t = ""
  · subst ht
    rw [gmrF_guard_step, gmrF_guard_step]
  · rcases h : tryBody df (pyStrip t) with e | r
    · rw [gmrF_error_step ht h, gmrF_error_step ht h]
    · cases r with
      | done l => rw [gmrF_done_step ht h, gmrF_done_step ht h]
      | recurse b => exact absurd h (tryBody_not_recurse hm)

/-- Every returned frame value: at most five entries, all drawn from the
table's labels, the frame's own (stripped) title excluded, scores
non-increasing. -/
lemma gmrF_some_spec :
    ∀ (n : Nat) (df : DataFrame) (t : String) (l : List (String × ℚ)),
      gmrF n df t = some l →
      l.length ≤ 5 ∧ (∀ p ∈ l, p.1 ∈ df.columns ∨ p.1 ∈ df.index) ∧
        pyStrip t ∉ l.map Prod.fst ∧ l.Pairwise (fun p q => q.2 ≤ p.2) := by
  intro n
  induction n with
  | zero =>
    intro df t l h
    rw [gmrF] at h
    exact absurd h (by simp)
  | succ n ih =>
    intro df t l h
    by_cases ht : t = ""
    · subst ht
      rw [gmrF_guard_step, Option.some.injEq] at h
      subst h
      simp
    · rcases htry : tryBody df (pyStrip t) with e | r
      · rw [gmrF_error_step ht htry, Option.some.injEq] at h
        subst h
        simp
      · cases r with
        | done l0 =>
          rw [gmrF_done_step ht htry, Option.some.injEq] at h
          subst h
          obtain ⟨hlen, hmem, hpw⟩ := tryBody_done_spec htry
          refine ⟨hlen, fun p hp => (hmem p hp).1, ?_, hpw⟩
          intro hx
          rcases List.mem_map.mp hx with ⟨p, hp, hfst⟩
          exact (hmem p hp).2 hfst
        | recurse best =>
          rw [gmrF_recurse_step ht htry] at h
          obtain ⟨hlen, hmem, _, hpw⟩ := ih df best l h
          refine ⟨hlen, hmem, ?_, hpw⟩
          intro hx
          rcases List.mem_map.mp hx with ⟨p, hp, hfst⟩
          have hnm := (tryBody_recurse_spec htry).2
          rcases hmem p hp with h' | h'
          · exact hnm.1 (hfst ▸ h')
          · exact hnm.2 (hfst ▸ h')

/-- Lemma: `find?` returns the given element when it is the only one
satisfying the predicate. -/
lemma find?_eq_some_of_all {α : Type} (p : α → Bool) (a : α) :
    ∀ (l : List α), a ∈ l → p a = true →
      (∀ x ∈ l, p x = true → x = a) → l.find? p = some a := by
  intro l
  induction l with
  | nil => simp
  | cons b l ih =>
    intro hmem hpa hall
    by_cases hb : p b = true
    · have hba : b = a := hall b (List.mem_cons_self _ _) hb
      subst hba
      exact List.find?_cons_of_pos _ hb
    · rw [List.find?_cons_of_neg _ (by simpa using hb)]
      have hmem' : a ∈ l := by
        rcases List.mem_cons.mp hmem with rfl | h
        · exact absurd hpa hb
        · exact h
      exact ih hmem' hpa (fun x hx => hall x (List.mem_cons_of_mem _ hx))

lemma recursionLimit_succ : recursionLimit = 999 + 1 := rfl

/-- In `dfWs` the query ` Up ` matches itself as a substring forever: every
fuel level is exhausted. -/
lemma gmrF_dfWs_loop : ∀ n : Nat, gmrF n dfWs " Up " = none := by
  intro n
  induction n with
  | zero => rw [gmrF]
  | succ n ih =>
    have htry : tryBody dfWs (pyStrip " Up ") = .ok (.recurse " Up ") := by rfl
    rw [gmrF_recurse_step (by decide) htry, ih]

/-! ### Claims -/

/-- Claim C1 (amended): for every table and title, the function returns at
most 5 results (the cap is hard-coded, not the caller's `k`, which the
function does not take), the stripped query title is never among them, and
the similarity scores of the returned entries are non-increasing. -/
theorem claim1_recommend_bounds (df : DataFrame) (t : String) :
    (get_movie_recommendations df t).length ≤ 5 ∧
      pyStrip t ∉ get_movie_recommendations df t ∧
      ((gmrF recursionLimit df t).getD []).Pairwise (fun p q => q.2 ≤ p.2) := by
  rcases h : gmrF recursionLimit df t with _ | l
  · rw [get_movie_recommendations, h]
    simp
  · rw [get_movie_recommendations, h]
    obtain ⟨hlen, _, hnm, hpw⟩ := gmrF_some_spec _ df t l h
    exact ⟨by simpa using hlen, hnm, by simpa using hpw⟩

/-- Claim C1, witness: the bound evaluated at a concrete table. -/
theorem claim1_witness : (get_movie_recommendations df8 "Q").length ≤ 5 :=
  (claim1_recommend_bounds df8 "Q").1

/-- Claim C1, counterexample to the claim as stated: `Q` is present in the
table, yet the call returns 5 results, violating "at most `k`" for
`k = 1` — the function has no `k` parameter to honour.  Moreover the
untrimmed query ` Up `, itself present in the table, is contained in its
own result list (only the stripped title is excluded). -/
theorem claim1_counterexample :
    ("Q" ∈ df8.columns ∧ (get_movie_recommendations df8 "Q").length = 5 ∧
        ¬ (get_movie_recommendations df8 "Q").length ≤ 1) ∧
      (" Up " ∈ dfPad.columns ∧
        get_movie_recommendations dfPad " Up " = [" Up "] ∧
        " Up " ∈ get_movie_recommendations dfPad " Up ") := by
  decide

/-- Claim C2 (amended): on the spec's example table the function returns
exactly the two non-self titles, as bare names without scores; and in
general every returned entry is a label of the table (no placeholder
padding). -/
theorem claim2_titles_only :
    get_movie_recommendations dfABC "A" = ["B", "C"] ∧
      ∀ (df : DataFrame) (t x : String),
        x ∈ get_movie_recommendations df t → x ∈ df.columns ∨ x ∈ df.index := by
  constructor
  · decide
  · intro df t x hx
    rcases h : gmrF recursionLimit df t with _ | l
    · rw [get_movie_recommendations, h] at hx
      simp at hx
    · rw [get_movie_recommendations, h] at hx
      simp only [Option.getD_some] at hx
      rcases List.mem_map.mp hx with ⟨p, hp, rfl⟩
      exact (gmrF_some_spec _ df t l h).2.1 p hp

/-- Claim C2, witness: the no-placeholder part applied at a concrete call. -/
theorem claim2_witness : "B" ∈ dfABC.columns ∨ "B" ∈ dfABC.index :=
  claim2_titles_only.2 dfABC "A" "B" (by decide)

/-- Claim C2, counterexample to the claim as stated: with 7 available
non-self titles the result length is the hard-coded 5, not
`min(k, number_of_available_non_self_titles)` (which is 7 for `k = 7`). -/
theorem claim2_counterexample :
    (get_movie_recommendations df8 "Q").length = 5 ∧
      (df8.columns.filter (fun c => c != "Q")).length = 7 ∧
      (get_movie_recommendations df8 "Q").length ≠
        min 7 (df8.columns.filter (fun c => c != "Q")).length := by
  decide

/-- Claim C3 (amended): there is no separate case-insensitive exact-match
step — after the exact checks the function goes straight to the
case-insensitive substring scan over the columns — so
`recommend("inception")` agrees with `recommend("Inception")` exactly when
`Inception` is the only column matching the substring. -/
theorem claim3_fallback (df : DataFrame)
    (h1 : "inception" ∉ df.columns) (h2 : "inception" ∉ df.index)
    (h3 : "Inception" ∈ df.columns)
    (h4 : ∀ c ∈ df.columns, strContainsCI c "inception" = true → c = "Inception") :
    get_movie_recommendations df "inception" = get_movie_recommendations df "Inception" := by
  have hstrip1 : pyStrip "inception" = "inception" := by decide
  have hstrip2 : pyStrip "Inception" = "Inception" := by decide
  have hfind : df.columns.find? (fun c => strContainsCI c "inception") = some "Inception" :=
    find?_eq_some_of_all _ _ _ h3 (by decide) h4
  have htry : tryBody df "inception" = .ok (.recurse "Inception") := by
    rw [tryBody, if_neg h1, if_neg h2, hfind]
  rw [get_movie_recommendations, get_movie_recommendations, recursionLimit_succ]
  rw [gmrF_recurse_step (by decide) (by rw [hstrip1]; exact htry)]
  have h999 : (999 : Nat) = 998 + 1 := rfl
  rw [h999, gmrF_fuel_stable (Or.inl (by rw [hstrip2]; exact h3)) 998 999]

/-- Claim C3, witness: the amended fallback equality on a table where
`Inception` is the only substring match. -/
theorem claim3_witness :
    ("inception" ∉ dfInc2.columns ∧ "inception" ∉ dfInc2.index ∧
        "Inception" ∈ dfInc2.columns ∧
        (∀ c ∈ dfInc2.columns, strContainsCI c "inception" = true → c = "Inception")) ∧
      get_movie_recommendations dfInc2 "inception" =
        get_movie_recommendations dfInc2 "Inception" :=
  ⟨⟨by decide, by decide, by decide, by decide⟩,
    claim3_fallback dfInc2 (by decide) (by decide) (by decide) (by decide)⟩

/-- Claim C3, counterexample to the claim as stated: the table contains
`Inception`, but `recommend("inception")` resolves to the earlier substring
match `Inception 2` and differs from `recommend("Inception")`; a
case-insensitive exact-match step would have picked `Inception`. -/
theorem claim3_counterexample :
    "Inception" ∈ dfInc.columns ∧
      get_movie_recommendations dfInc "inception" = ["Inception"] ∧
      get_movie_recommendations dfInc "Inception" = ["Inception 2"] ∧
      get_movie_recommendations dfInc "inception" ≠
        get_movie_recommendations dfInc "Inception" := by
  decide

/-- Claim C4: a title that neither matches exactly (after stripping) nor is
a case-insensitive substring of any label yields the empty list, through
the normal return path — no error is signalled. -/
theorem claim4_unmatched_empty (df : DataFrame) (t : String)
    (h1 : pyStrip t ∉ df.columns) (h2 : pyStrip t ∉ df.index)
    (h3 : ∀ c ∈ df.columns, strContainsCI c (pyStrip t) = false)
    (h4 : ∀ i ∈ df.index, strContainsCI i (pyStrip t) = false) :
    get_movie_recommendations df t = [] := by
  by_cases ht : t = ""
  · subst ht
    rw [get_movie_recommendations, recursionLimit_succ, gmrF_guard_step]
    rfl
  · have hfc : df.columns.find? (fun c => strContainsCI c (pyStrip t)) = none :=
      List.find?_eq_none.mpr (fun x hx => by rw [h3 x hx]; simp)
    have hfi : df.index.find? (fun i => strContainsCI i (pyStrip t)) = none :=
      List.find?_eq_none.mpr (fun x hx => by rw [h4 x hx]; simp)
    have htry : tryBody df (pyStrip t) = .ok (.done []) := by
      rw [tryBody, if_neg h1, if_neg h2, hfc, hfi]
    rw [get_movie_recommendations, recursionLimit_succ, gmrF_done_step ht htry]
    rfl

/-- Claim C4, witness: an absent title on a concrete table. -/
theorem claim4_witness :
    (pyStrip "Zebra" ∉ dfInc.columns ∧ pyStrip "Zebra" ∉ dfInc.index ∧
        (∀ c ∈ dfInc.columns, strContainsCI c (pyStrip "Zebra") = false) ∧
        (∀ i ∈ dfInc.index, strContainsCI i (pyStrip "Zebra") = false)) ∧
      get_movie_recommendations dfInc "Zebra" = [] :=
  ⟨⟨by decide, by decide, by decide, by decide⟩,
    claim4_unmatched_empty dfInc "Zebra" (by decide) (by decide) (by decide) (by decide)⟩

/-- Claim C5 (amended): the function has no `k` parameter and raises no
`InvalidArgument`: an empty (falsy) title is answered by the initial guard
with a normal empty-list return. -/
theorem claim5_no_invalid_argument (df : DataFrame) (t : String) (h : t = "") :
    gmrF recursionLimit df t = some [] ∧ get_movie_recommendations df t = [] := by
  subst h
  refine ⟨?_, ?_⟩
  · rw [recursionLimit_succ]
    exact gmrF_guard_step _ _
  · rw [get_movie_recommendations, recursionLimit_succ, gmrF_guard_step]
    rfl

/-- Claim C5, witness: the empty title at a concrete table. -/
theorem claim5_witness :
    ("" : String) = "" ∧
      (gmrF recursionLimit dfDedup "" = some [] ∧
        get_movie_recommendations dfDedup "" = []) :=
  ⟨rfl, claim5_no_invalid_argument dfDedup "" rfl⟩

/-- Claim C5, counterexample to the claim as stated: the empty title does
not fail — the call returns normally (`some []` from the guard) with the
empty list, and no `k` exists to validate. -/
theorem claim5_counterexample :
    gmrF recursionLimit dfABC "" = some [] ∧ get_movie_recommendations dfABC "" = [] := by
  decide

/-- Claim C6 (amended): a duplicated (stripped) title label makes the
pandas lookup return a `DataFrame` whose `sort_values()` call raises; the
exception is caught and the query deterministically returns the empty
list — it does not abort, but it does not use the first occurrence. -/
theorem claim6_duplicates_empty (df : DataFrame) (t : String) (ht : t ≠ "")
    (hmem : pyStrip t ∈ df.index) (hdup : 2 ≤ df.index.count (pyStrip t)) :
    get_movie_recommendations df t = [] := by
  rw [get_movie_recommendations, recursionLimit_succ,
    gmrF_error_step ht (tryBody_error_of_dup hmem hdup)]
  rfl

/-- Claim C6, witness: the duplicate-label table. -/
theorem claim6_witness :
    (("Up" : String) ≠ "" ∧ pyStrip "Up" ∈ dfDup.index ∧
        2 ≤ dfDup.index.count (pyStrip "Up")) ∧
      get_movie_recommendations dfDup "Up" = [] :=
  ⟨⟨by decide, by decide, by decide⟩,
    claim6_duplicates_empty dfDup "Up" (by decide) (by decide) (by decide)⟩

/-- Claim C6, counterexample to the claim as stated: with two `Up` rows the
query returns `[]`, not the ranking of the first occurrence (which the
deduplicated table shows would be `["B"]`). -/
theorem claim6_counterexample :
    get_movie_recommendations dfDup "Up" = [] ∧
      get_movie_recommendations dfDedup "Up" = ["B"] ∧
      get_movie_recommendations dfDup "Up" ≠ get_movie_recommendations dfDedup "Up" := by
  decide

/-- Claim C7 (amended): equal-score candidates are returned in reverse
order of their first appearance in the table: `sort_values` argsorts
ascending (stably, for these sizes) and then reverses, so no stable
first-appearance tie-break exists. -/
theorem claim7_ties_reversed (s : ℚ) (h : ¬ (1 : ℚ) ≤ s) :
    get_movie_recommendations (dfTie s) "Q" = ["C", "B", "A"] := by
  have hmemc : ("Q" : String) ∈ (dfTie s).columns := by
    show ("Q" : String) ∈ ["Q", "A", "B", "C"]
    decide
  have hmemi : ("Q" : String) ∈ (dfTie s).index := by
    show ("Q" : String) ∈ ["Q", "A", "B", "C"]
    decide
  have hcount : ¬ 2 ≤ (dfTie s).index.count "Q" := by
    show ¬ 2 ≤ List.count "Q" ["Q", "A", "B", "C"]
    decide
  have hidx : List.indexOf "Q" (dfTie s).index = 0 := by
    show List.indexOf "Q" ["Q", "A", "B", "C"] = 0
    decide
  have hrow : (dfTie s).rowSeries 0 = [("Q", 1), ("A", s), ("B", s), ("C", s)] := by
    simp [DataFrame.rowSeries, seriesAux, dfTie]
  have hsort : sortAsc [("Q", (1 : ℚ)), ("A", s), ("B", s), ("C", s)] =
      [("A", s), ("B", s), ("C", s), ("Q", 1)] := by
    simp [sortAsc, insertAsc, h]
  have hq : (("Q" : String) != "Q") = false := by decide
  have ha : (("A" : String) != "Q") = true := by decide
  have hb : (("B" : String) != "Q") = true := by decide
  have hc : (("C" : String) != "Q") = true := by decide
  have hsa : (pyStrip "A" != "") = true := by decide
  have hsb : (pyStrip "B" != "") = true := by decide
  have hsc : (pyStrip "C" != "") = true := by decide
  have hrank : rankPipeline "Q" [("Q", (1 : ℚ)), ("A", s), ("B", s), ("C", s)] =
      [("C", s), ("B", s), ("A", s)] := by
    rw [rankPipeline, sortValuesDesc, hsort]
    simp [List.filter, hq, ha, hb, hc, hsa, hsb, hsc]
  have htry : tryBody (dfTie s) "Q" = .ok (.done [("C", s), ("B", s), ("A", s)]) := by
    rw [tryBody, if_pos hmemc, if_pos hmemi, if_neg hcount, hidx, hrow, hrank]
  rw [get_movie_recommendations, recursionLimit_succ,
    gmrF_done_step (by decide) (by rw [(by decide : pyStrip "Q" = "Q")]; exact htry)]
  rfl

/-- Claim C7, witness: the reversed tie order at score one half. -/
theorem claim7_witness :
    ¬ (1 : ℚ) ≤ mkRat 1 2 ∧
      get_movie_recommendations (dfTie (mkRat 1 2)) "Q" = ["C", "B", "A"] :=
  ⟨by decide, claim7_ties_reversed (mkRat 1 2) (by decide)⟩

/-- Claim C7, counterexample to the claim as stated: the three candidates
tied at one half appear in reverse table order, not in order of first
appearance. -/
theorem claim7_counterexample :
    get_movie_recommendations (dfTie (mkRat 1 2)) "Q" = ["C", "B", "A"] ∧
      get_movie_recommendations (dfTie (mkRat 1 2)) "Q" ≠ ["A", "B", "C"] := by
  decide

/-- Claim C8: the function is deterministic — it reads nothing but the
table and the title, so two calls against equal tables agree. -/
theorem claim8_deterministic (df df' : DataFrame) (t : String)
    (hi : df.index = df'.index) (hc : df.columns = df'.columns)
    (hv : df.cell = df'.cell) :
    get_movie_recommendations df t = get_movie_recommendations df' t := by
  obtain ⟨i, c, v⟩ := df
  obtain ⟨i', c', v'⟩ := df'
  dsimp only at hi hc hv
  subst hi hc hv
  rfl

/-- Claim C8, witness: two identical calls at a concrete table. -/
theorem claim8_witness :
    (dfABC.index = dfABC.index ∧ dfABC.columns = dfABC.columns ∧
        dfABC.cell = dfABC.cell) ∧
      get_movie_recommendations dfABC "A" = get_movie_recommendations dfABC "A" :=
  ⟨⟨rfl, rfl, rfl⟩, claim8_deterministic dfABC dfABC "A" rfl rfl rfl⟩

/-- Claim C9: an exception raised inside the try-block (here: the
duplicate-label `TypeError` from `sort_values`) never propagates: the
function returns the empty list instead. -/
theorem claim9_exceptions_caught (df : DataFrame) (t : String) (e : PdErr)
    (ht : t ≠ "") (herr : tryBody df (pyStrip t) = .error e) :
    get_movie_recommendations df t = [] := by
  rw [get_movie_recommendations, recursionLimit_succ, gmrF_error_step ht herr]
  rfl

/-- Claim C9, witness: the caught `TypeError` at the duplicate table. -/
theorem claim9_witness :
    (("Up" : String) ≠ "" ∧ tryBody dfDup (pyStrip "Up") = .error .typeErr) ∧
      get_movie_recommendations dfDup "Up" = [] :=
  ⟨⟨by decide, by rfl⟩,
    claim9_exceptions_caught dfDup "Up" .typeErr (by decide) (by rfl)⟩

/-- Claim C10 (amended): when every label equals its own strip, the
fallback resolves after at most one recursive call (two frames of fuel
suffice); the unrestricted claim fails for whitespace-padded labels. -/
theorem claim10_one_recursion (df : DataFrame) (t : String)
    (hcols : ∀ l ∈ df.columns, pyStrip l = l)
    (hidx : ∀ l ∈ df.index, pyStrip l = l) :
    (gmrF 2 df t).isSome = true := by
  have h2 : (2 : Nat) = 1 + 1 := rfl
  have h1 : (1 : Nat) = 0 + 1 := rfl
  by_cases ht : t = ""
  · subst ht
    rw [h2, gmrF_guard_step]
    rfl
  · rcases htry : tryBody df (pyStrip t) with e | r
    · rw [h2, gmrF_error_step ht htry]
      rfl
    · cases r with
      | done l =>
        rw [h2, gmrF_done_step ht htry]
        rfl
      | recurse best =>
        rw [h2, gmrF_recurse_step ht htry]
        have hbm : best ∈ df.columns ∨ best ∈ df.index := (tryBody_recurse_spec htry).1
        by_cases hb : best = ""
        · subst hb
          rw [h1, gmrF_guard_step]
          rfl
        · have hstrip : pyStrip best = best := by
            rcases hbm with h' | h'
            · exact hcols best h'
            · exact hidx best h'
          rcases htry2 : tryBody df (pyStrip best) with e | r2
          · rw [h1, gmrF_error_step hb htry2]
            rfl
          · cases r2 with
            | done l =>
              rw [h1, gmrF_done_step hb htry2]
              rfl
            | recurse b2 =>
              rw [hstrip] at htry2
              exact absurd htry2 (tryBody_not_recurse hbm)

/-- Claim C10, witness: one recursive call suffices on a table whose
labels are strip-invariant. -/
theorem claim10_witness :
    ((∀ l ∈ dfInc2.columns, pyStrip l = l) ∧ (∀ l ∈ dfInc2.index, pyStrip l = l)) ∧
      (gmrF 2 dfInc2 "inc").isSome = true :=
  ⟨⟨by decide, by decide⟩, claim10_one_recursion dfInc2 "inc" (by decide) (by decide)⟩

/-- Claim C10, counterexample to the claim as stated: with the
whitespace-padded label ` Up ` the recursive argument is an exact column
label, yet its re-strip misses again and the recursion does not resolve
within one recursive call (nor ever: the overall call ends as `[]` only
through the recursion limit). -/
theorem claim10_counterexample :
    gmrF 2 dfWs "Up" = none ∧ (gmrF 2 dfWs "Up").isSome = false ∧
      get_movie_recommendations dfWs "Up" = [] := by
  refine ⟨by decide, by decide, ?_⟩
  have htry : tryBody dfWs (pyStrip "Up") = .ok (.recurse " Up ") := by rfl
  rw [get_movie_recommendations, recursionLimit_succ,
    gmrF_recurse_step (by decide) htry, gmrF_dfWs_loop]
  rfl

end MovieRec
